import Mathlib

/-!
Verification of the realtime multi-agent voice session repository
(`src/app/hooks/useRealtimeSession.ts`, `src/app/agentConfigs/doorDashMultiAgent.ts`,
`src/server/neonClient.ts`, `src/app/api/session/route.ts`) against its
natural-language specification.

The stateful hook `useRealtimeSession` is embedded as a state machine on
`HookState`; the agent configuration module is embedded as concrete data;
the Neon-backed order store is embedded as explicit state passing.
-/

namespace RealtimeRepo

/-- Session status values of `SessionStatus` (`'DISCONNECTED' | 'CONNECTING' | 'CONNECTED'`),
as used by `useRealtimeSession`. -/
inductive SessionStatus
  | DISCONNECTED
  | CONNECTING
  | CONNECTED
deriving DecidableEq, Repr

/-- Outbound transport commands sent through `sessionRef.current.transport.sendEvent`:
`input_audio_buffer.clear`, `input_audio_buffer.commit`, `response.create`, and
audio appended by the transport layer between push-to-talk calls. -/
inductive TransportEvent
  | clear
  | commit
  | responseCreate
  | appendAudio (chunk : String)
deriving DecidableEq, Repr

/-- The live `RealtimeSession` object held in `sessionRef.current`: it records the
root agent passed to the constructor (`new RealtimeSession(rootAgent, ...)` with
`rootAgent = initialAgents[0]`), the outbound transport events sent so far, and
the user messages sent with `sendMessage`. -/
structure LiveSession where
  activeAgent : Option String
  sentEvents : List TransportEvent
  sentMessages : List String
deriving DecidableEq, Repr

/-- The observable state of the `useRealtimeSession` hook: the `sessionRef`
(`RealtimeSession | null`) and the `status` state variable. -/
structure HookState where
  session : Option LiveSession
  status : SessionStatus
deriving DecidableEq, Repr

/-- The state in which the hook starts: `sessionRef.current = null`,
`useState<SessionStatus>('DISCONNECTED')`. -/
def initialHookState : HookState :=
  { session := none, status := SessionStatus.DISCONNECTED }

/-- The successful path of `connect` (useRealtimeSession.ts lines 138-208):
if `sessionRef.current` is set the call returns immediately without touching any
state (`return; // already connected`); otherwise the hook moves through
`CONNECTING`, constructs a `RealtimeSession` whose agent is `initialAgents[0]`,
awaits the transport connect, and sets status `CONNECTED`. Failure paths of the
awaits (rejected promises) are not modelled; this is the successful run. -/
def connect (st : HookState) (initialAgents : List String) : HookState :=
  match st.session with
  | some _ => st
  | none =>
      { session := some { activeAgent := initialAgents.head?
                          sentEvents := []
                          sentMessages := [] }
        status := SessionStatus.CONNECTED }

/-- The intermediate state of `connect` that is observable while
`await sessionRef.current.connect({ apiKey: ek })` (line 201) is pending:
`sessionRef.current` has already been assigned (line 170) but `updateStatus('CONNECTED')`
(line 205) has not yet run, so the status is still `CONNECTING` (set at line 154).
Callers of the hook can invoke other operations in this state. -/
def connectMidState (st : HookState) (initialAgents : List String) : HookState :=
  match st.session with
  | some _ => st
  | none =>
      { session := some { activeAgent := initialAgents.head?
                          sentEvents := []
                          sentMessages := [] }
        status := SessionStatus.CONNECTING }

/-- `disconnect` (lines 210-215): `sessionRef.current?.close()` (a no-op when the
ref is null), then `sessionRef.current = null`, then `updateStatus('DISCONNECTED')`.
It is a total function: no branch can throw. -/
def disconnect (st : HookState) : HookState :=
  let _ := st
  { session := none, status := SessionStatus.DISCONNECTED }

/-- `sendUserText` (lines 217-230): `assertconnected()` throws
`Error('RealtimeSession not connected')` when `sessionRef.current` is null,
otherwise `sessionRef.current!.sendMessage(text)` sends the one message.
The guard inspects only the session ref, never the `status` variable. -/
def sendUserText (st : HookState) (text : String) : Except String HookState :=
  match st.session with
  | none => Except.error "RealtimeSession not connected"
  | some sess =>
      Except.ok { st with
        session := some { sess with sentMessages := sess.sentMessages ++ [text] } }

/-- `pushToTalkStart` (lines 240-243): early return when `sessionRef.current` is
null, otherwise sends exactly one `input_audio_buffer.clear` transport event. -/
def pushToTalkStart (st : HookState) : HookState :=
  match st.session with
  | none => st
  | some sess =>
      { st with
        session := some { sess with sentEvents := sess.sentEvents ++ [TransportEvent.clear] } }

/-- `pushToTalkStop` (lines 245-249): early return when `sessionRef.current` is
null, otherwise sends `input_audio_buffer.commit` followed by `response.create`. -/
def pushToTalkStop (st : HookState) : HookState :=
  match st.session with
  | none => st
  | some sess =>
      { st with
        session := some { sess with
          sentEvents := sess.sentEvents ++ [TransportEvent.commit, TransportEvent.responseCreate] } }

/-- Modelled from the spec: the transport collaborator's input-buffer semantics
(section 6 outbound commands `clear_input_buffer`, `commit_input_buffer`,
`request_response`, and the push-to-talk semantics of section 4.1). The transport
implementation itself is out of scope of the repository; its state is the pending
input buffer, the sequence of committed buffers, and the number of response
requests issued. -/
structure TransportState where
  inputBuffer : List String
  committed : List (List String)
  responsesRequested : Nat
deriving DecidableEq, Repr

/-- Modelled from the spec: how the transport collaborator processes one outbound
command. `clear` empties the pending buffer, `commit` appends the pending buffer
to the committed sequence and empties it, `response.create` requests a response,
and audio chunks accumulate in the pending buffer. -/
def applyTransportEvent (t : TransportState) (e : TransportEvent) : TransportState :=
  match e with
  | TransportEvent.clear => { t with inputBuffer := [] }
  | TransportEvent.commit =>
      { t with committed := t.committed ++ [t.inputBuffer], inputBuffer := [] }
  | TransportEvent.responseCreate =>
      { t with responsesRequested := t.responsesRequested + 1 }
  | TransportEvent.appendAudio chunk =>
      { t with inputBuffer := t.inputBuffer ++ [chunk] }

/-- Folding a sequence of outbound commands into the transport collaborator. -/
def applyTransportEvents (t : TransportState) (es : List TransportEvent) : TransportState :=
  es.foldl applyTransportEvent t

/-- An agent definition from `doorDashMultiAgent.ts` (`new RealtimeAgent({...})`).
Tools and handoff targets are identified by name. The free-text fields
(`handoffDescription`, `instructions`) do not influence any behavior modelled
here and are omitted. -/
structure RealtimeAgent where
  name : String
  voice : String
  tools : List String
  handoffs : List String
deriving DecidableEq, Repr

/-- The mutation `(agent.handoffs as any).push(a, b, ...)` performed at module
load in doorDashMultiAgent.ts lines 922-926: appends the given agent names to
the handoffs list. -/
def pushHandoffs (a : RealtimeAgent) (targets : List String) : RealtimeAgent :=
  { a with handoffs := a.handoffs ++ targets }

/-- The names of all tools constructed in doorDashMultiAgent.ts: the nine
`tool({...})` constants plus the hosted MCP tool `top_restaurant_search`
exposed through the langflow server. This is the Tool Registry of the module. -/
def doorDashToolRegistry : List String :=
  [ "fetchOrderHistory", "createOrderRecord", "getCustomerAddress",
    "fetchOrderRecord", "fetchNearbyRestaurants", "issueRefund",
    "createReplacementOrder", "getActivePromotions", "applyPromotionCode",
    "top_restaurant_search" ]

/-- conciergeAgent as declared (doorDashMultiAgent.ts lines 907-920), before the
handoff pushes: `handoffs: []`. -/
def conciergeAgentBase : RealtimeAgent :=
  { name := "conciergeAgent", voice := "sage"
    tools := ["top_restaurant_search"], handoffs := [] }

/-- orderingAgent as declared (lines 853-868), before the handoff pushes. -/
def orderingAgentBase : RealtimeAgent :=
  { name := "orderingAgent", voice := "alloy"
    tools := [ "fetchOrderHistory", "getCustomerAddress", "applyPromotionCode",
               "createOrderRecord", "fetchOrderRecord" ]
    handoffs := [] }

/-- recommendationAgent as declared (lines 870-883), before the handoff pushes. -/
def recommendationAgentBase : RealtimeAgent :=
  { name := "recommendationAgent", voice := "verse"
    tools := [ "fetchOrderHistory", "getActivePromotions",
               "fetchNearbyRestaurants", "top_restaurant_search" ]
    handoffs := [] }

/-- promoAgent as declared (lines 885-894), before the handoff pushes. -/
def promoAgentBase : RealtimeAgent :=
  { name := "promoAgent", voice := "spark"
    tools := ["getActivePromotions", "applyPromotionCode"], handoffs := [] }

/-- refundAgent as declared (lines 896-905), before the handoff pushes. -/
def refundAgentBase : RealtimeAgent :=
  { name := "refundAgent", voice := "sage"
    tools := ["fetchOrderRecord", "issueRefund", "createReplacementOrder"]
    handoffs := [] }

/-- conciergeAgent after line 922:
`(conciergeAgent.handoffs as any).push(orderingAgent, recommendationAgent, refundAgent, promoAgent)`. -/
def conciergeAgent : RealtimeAgent :=
  pushHandoffs conciergeAgentBase
    ["orderingAgent", "recommendationAgent", "refundAgent", "promoAgent"]

/-- orderingAgent after line 923. -/
def orderingAgent : RealtimeAgent :=
  pushHandoffs orderingAgentBase
    ["conciergeAgent", "recommendationAgent", "refundAgent", "promoAgent"]

/-- recommendationAgent after line 924. -/
def recommendationAgent : RealtimeAgent :=
  pushHandoffs recommendationAgentBase
    ["conciergeAgent", "orderingAgent", "promoAgent"]

/-- promoAgent after line 925. -/
def promoAgent : RealtimeAgent :=
  pushHandoffs promoAgentBase
    ["conciergeAgent", "orderingAgent", "recommendationAgent"]

/-- refundAgent after line 926. -/
def refundAgent : RealtimeAgent :=
  pushHandoffs refundAgentBase
    ["conciergeAgent", "orderingAgent", "promoAgent"]

/-- The exported scenario array (doorDashMultiAgent.ts lines 928-934). The
construction is a plain array literal over the already-built agents; no
validation of any kind runs when it is built. -/
def doorDashMultiAgentScenario : List RealtimeAgent :=
  [conciergeAgent, orderingAgent, recommendationAgent, promoAgent, refundAgent]

/-- The agent names present in a scenario. -/
def agentNames (scenario : List RealtimeAgent) : List String :=
  scenario.map (fun a => a.name)

/-- The configuration invariants of spec section 4.3, as a decidable check on a
scenario: agent names are pairwise distinct, every handoff target names an agent
of the scenario, and every tool referenced by an agent exists in the registry. -/
def scenarioValid (registry : List String) (scenario : List RealtimeAgent) : Bool :=
  decide ((agentNames scenario).Nodup)
    && scenario.all (fun a => a.handoffs.all (fun h => (agentNames scenario).contains h))
    && scenario.all (fun a => a.tools.all (fun t => registry.contains t))

/-- The handler installed on the agent_handoff event
(useRealtimeSession.ts lines 80-85): it reads the name of the last history
message and extracts the target agent name from the suffix of
`transfer_to_` (via `lastMessage.name.split("transfer_to_")[1]`). -/
def handleAgentHandoff (lastMessageName : String) : Option String :=
  (lastMessageName.splitOn "transfer_to_").get? 1

/-- History items the orchestrator appends: accepted handoffs, rejected
handoffs (the HandoffRejected guardrail-like class of spec section 7), tool
results, and tool execution errors. -/
inductive HistoryItem
  | handoffRecord (fromAgent toAgent : String)
  | handoffRejected (fromAgent target : String)
  | toolResultRecord (toolName : String)
  | toolErrorRecord (toolName : String) (error : String)
deriving DecidableEq, Repr

/-- Tests whether a history item is of the HandoffRejected class. -/
def isHandoffRejected : HistoryItem → Bool
  | HistoryItem.handoffRejected _ _ => true
  | _ => false

/-- The orchestrator-side session state: connection status, the active-agent
pointer, and the append-only history. -/
structure OrchestratorState where
  status : SessionStatus
  activeAgent : String
  history : List HistoryItem
deriving DecidableEq, Repr

/-- Modelled from the spec: the handoff protocol of section 4.1. The session
orchestration that validates a transfer directive lives in the RealtimeSession
runtime, which is not part of src (the hook at useRealtimeSession.ts lines
80-85 only reacts to already-accepted handoffs). Processing a transfer
directive looks up the departing (active) agent in the scenario, accepts the
handoff when the target is in its permitted handoffs set (switching the
active-agent pointer and appending a handoff record), and otherwise rejects it,
leaving the pointer unchanged and appending one HandoffRejected item. -/
def processHandoffDirective (scenario : List RealtimeAgent)
    (st : OrchestratorState) (target : String) : OrchestratorState :=
  match scenario.find? (fun a => a.name == st.activeAgent) with
  | none =>
      { st with history := st.history ++ [HistoryItem.handoffRejected st.activeAgent target] }
  | some departing =>
      if target ∈ departing.handoffs then
        { st with activeAgent := target
                  history := st.history ++ [HistoryItem.handoffRecord st.activeAgent target] }
      else
        { st with history := st.history ++ [HistoryItem.handoffRejected st.activeAgent target] }

/-- A transcript history item of the event/history projection: utterance
identifier, accumulated text, and the terminal (completed) flag. -/
structure TranscriptItem where
  itemId : String
  text : String
  done : Bool
deriving DecidableEq, Repr

/-- Modelled from the spec: `handleTranscriptionDelta` of the
useHandleSessionHistory hook, which useRealtimeSession.ts imports but whose
file is not part of src. Per spec section 4.2, a delta event for an utterance
identifier appends to the in-progress text of the existing open item for that
identifier and never creates a duplicate while it is open; the first delta for
an identifier opens the item. -/
def handleTranscriptionDelta (h : List TranscriptItem) (itemId delta : String) :
    List TranscriptItem :=
  if h.any (fun it => it.itemId == itemId && !it.done) then
    h.map (fun it =>
      if it.itemId == itemId && !it.done then { it with text := it.text ++ delta } else it)
  else
    h ++ [{ itemId := itemId, text := delta, done := false }]

/-- Modelled from the spec: `handleTranscriptionCompleted` of the
useHandleSessionHistory hook (file not part of src). Per spec section 4.2, a
completed event closes the item for that identifier, storing the final text and
marking it terminal; when no item was ever opened it still creates a finished
item containing the final text directly. -/
def handleTranscriptionCompleted (h : List TranscriptItem) (itemId finalText : String) :
    List TranscriptItem :=
  if h.any (fun it => it.itemId == itemId) then
    h.map (fun it =>
      if it.itemId == itemId then { it with text := finalText, done := true } else it)
  else
    h ++ [{ itemId := itemId, text := finalText, done := true }]

/-- The error body the tool helpers extract from a non-OK HTTP response
(`errorBody.error`, `errorBody.details`); either field may be absent when the
body is not JSON or empty. -/
structure ErrorBody where
  errorField : Option String
  detailsField : Option String
deriving DecidableEq, Repr

/-- The possible outcomes of the `fetch` call inside a tool execute function:
an OK response carrying a payload, a non-OK response carrying whatever error
body could be extracted, or a thrown exception with its message. -/
inductive FetchOutcome (α : Type)
  | ok (payload : α)
  | httpError (body : ErrorBody)
  | threw (message : String)
deriving DecidableEq, Repr

/-- The structured result a tool execute function returns: `{success: true, ...}`
with the payload, or `{success: false, error, details}`. -/
inductive ToolResult (α : Type)
  | success (payload : α)
  | failure (error : String) (details : Option String)
deriving DecidableEq, Repr

/-- Tests whether a tool result is the structured failure shape. -/
def ToolResult.isFailure {α : Type} : ToolResult α → Bool
  | ToolResult.failure _ _ => true
  | ToolResult.success _ => false

/-- `fetchOrderRecordTool.execute` (doorDashMultiAgent.ts lines 525-564) as a
function of the fetch outcome: on a non-OK response it returns
`{success:false, error: errorBody.error ?? "Failed to fetch order record",
details: errorBody.details}`; on a thrown exception it returns
`{success:false, error:"Unexpected failure while fetching order record",
details: message}`; on OK it returns `{success:true, order}`. It never
propagates an exception. -/
def fetchOrderRecordExecute {α : Type} (outcome : FetchOutcome α) : ToolResult α :=
  match outcome with
  | FetchOutcome.ok payload => ToolResult.success payload
  | FetchOutcome.httpError body =>
      ToolResult.failure (body.errorField.getD "Failed to fetch order record") body.detailsField
  | FetchOutcome.threw message =>
      ToolResult.failure "Unexpected failure while fetching order record" (some message)

/-- `fetchOrderHistoryTool.execute` (doorDashMultiAgent.ts lines 353-398) as a
function of the fetch outcome, with the analogous default error strings. -/
def fetchOrderHistoryExecute {α : Type} (outcome : FetchOutcome α) : ToolResult α :=
  match outcome with
  | FetchOutcome.ok payload => ToolResult.success payload
  | FetchOutcome.httpError body =>
      ToolResult.failure (body.errorField.getD "Failed to fetch order history") body.detailsField
  | FetchOutcome.threw message =>
      ToolResult.failure "Unexpected failure while fetching order history" (some message)

/-- Modelled from the spec: the orchestrator records each tool result as exactly
one history item (spec sections 4.1 and 7): a successful result as a tool-result
record and a structured failure as a ToolExecutionError record; recording never
changes the connection status. The recording side lives in the RealtimeSession
runtime and the useHandleSessionHistory hook, neither of which is part of src. -/
def recordToolResult {α : Type} (st : OrchestratorState) (toolName : String)
    (r : ToolResult α) : OrchestratorState :=
  match r with
  | ToolResult.success _ =>
      { st with history := st.history ++ [HistoryItem.toolResultRecord toolName] }
  | ToolResult.failure e _ =>
      { st with history := st.history ++ [HistoryItem.toolErrorRecord toolName e] }

/-- One line item stored with an order (`{ name, quantity, notes? }`). -/
structure StoredOrderItem where
  name : String
  quantity : Nat
  notes : Option String
deriving DecidableEq, Repr

/-- A row of the `doordash_orders` table as returned by the queries in
neonClient.ts: serial id, status, customer name, optional promotion code, and
the stored items. -/
structure OrderRow where
  id : Nat
  status : String
  customer_name : String
  promotion_code : Option String
  items : List StoredOrderItem
deriving DecidableEq, Repr

/-- The `doordash_orders` table with its serial-id counter. -/
structure OrdersTable where
  rows : List OrderRow
  nextId : Nat
deriving DecidableEq, Repr

/-- `insertOrder` (neonClient.ts lines 24-49): the INSERT writes the literal
status value pending —
`INSERT INTO doordash_orders (customer_name, items, promotion_code, status)
VALUES (..., ..., ..., 'pending') RETURNING id, status, ...` — assigning the
next serial id, and returns the inserted row. -/
def insertOrder (db : OrdersTable) (customerName : String)
    (items : List StoredOrderItem) (promotionCode : Option String) :
    OrdersTable × OrderRow :=
  let row : OrderRow :=
    { id := db.nextId, status := "pending", customer_name := customerName
      promotion_code := promotionCode, items := items }
  ({ rows := db.rows ++ [row], nextId := db.nextId + 1 }, row)

/-- `fetchOrderById` (neonClient.ts lines 51-81): `SELECT ... FROM
doordash_orders WHERE id = orderId LIMIT 1`, returning the row or null. -/
def fetchOrderById (db : OrdersTable) (orderId : Nat) : Option OrderRow :=
  db.rows.find? (fun r => r.id == orderId)

/-- The input of `issueRefundTool.execute`: required `order_id`, `refund_type`
and `reason`, optional `amount_usd` (a JS number, embedded as a rational). -/
structure RefundInput where
  order_id : String
  refund_type : String
  amount_usd : Option ℚ
  reason : String
deriving DecidableEq, Repr

/-- The result object `issueRefundTool.execute` returns (the `processed_at`
timestamp is wall-clock time and is not modelled). -/
structure RefundResult where
  order_id : String
  refund_type : String
  amount_refunded_usd : ℚ
  confirmation_id : String
deriving DecidableEq, Repr

/-- `Number(x.toFixed(2))`: rounding a decimal amount to two decimal places
(nearest cent, halves up). -/
def toFixed2 (q : ℚ) : ℚ := ((⌊q * 100 + 1/2⌋ : ℤ) : ℚ) / 100

/-- `issueRefundTool.execute` (doorDashMultiAgent.ts lines 690-712, identical to
the first variant at lines 175-197): `resolvedAmount` is 28.5 for a full refund,
otherwise `amount_usd` when it is a number and 5 when it is absent; the result
echoes `order_id` and `refund_type` and carries
`Number(resolvedAmount.toFixed(2))` as `amount_refunded_usd`. -/
def issueRefundExecute (input : RefundInput) : RefundResult :=
  let resolvedAmount : ℚ :=
    if input.refund_type = "full" then 28.5
    else
      match input.amount_usd with
      | some a => a
      | none => 5
  { order_id := input.order_id
    refund_type := input.refund_type
    amount_refunded_usd := toFixed2 resolvedAmount
    confirmation_id := "RF-19822" }

/-- An agent with a handoff target that names no agent, built through exactly
the construction path of the module (a RealtimeAgent literal followed by a
handoffs push). The construction is plain data manipulation and has no failure
channel. -/
def ghostHandoffAgent : RealtimeAgent :=
  pushHandoffs { name := "soloAgent", voice := "alloy", tools := [], handoffs := [] }
    ["ghostAgent"]

/-- Helper: a delta for an identifier with no item in the history opens a fresh
item at the end. -/
theorem handleTranscriptionDelta_not_present (h : List TranscriptItem) (id d : String)
    (hid : ∀ it ∈ h, (it.itemId == id) = false) :
    handleTranscriptionDelta h id d = h ++ [{ itemId := id, text := d, done := false }] := by
  unfold handleTranscriptionDelta
  have hany : h.any (fun it => it.itemId == id && !it.done) = false := by
    rw [List.any_eq_false]
    intro it hit
    simp [hid it hit]
  rw [hany]
  simp

/-- Theorem for claim C1: in a CONNECTED session, a transfer directive naming a
target that is not in the departing (active) agent's permitted handoffs set is
rejected: the active-agent pointer and the status are unchanged and exactly one
HandoffRejected-class history item is appended. -/
theorem handoff_rejected_leaves_agent_unchanged (scenario : List RealtimeAgent)
    (st : OrchestratorState) (target : String) (departing : RealtimeAgent)
    (hconn : st.status = SessionStatus.CONNECTED)
    (hfind : scenario.find? (fun a => a.name == st.activeAgent) = some departing)
    (hperm : target ∉ departing.handoffs) :
    (processHandoffDirective scenario st target).activeAgent = st.activeAgent ∧
    (processHandoffDirective scenario st target).status = SessionStatus.CONNECTED ∧
    (processHandoffDirective scenario st target).history =
      st.history ++ [HistoryItem.handoffRejected st.activeAgent target] ∧
    (processHandoffDirective scenario st target).history.countP
        (fun it => isHandoffRejected it) =
      st.history.countP (fun it => isHandoffRejected it) + 1 := by
  have key : processHandoffDirective scenario st target =
      { st with history := st.history ++ [HistoryItem.handoffRejected st.activeAgent target] } := by
    unfold processHandoffDirective
    rw [hfind]
    exact if_neg hperm
  rw [key]
  refine ⟨rfl, hconn, rfl, ?_⟩
  rw [List.countP_append]
  simp [isHandoffRejected]

/-- Witness for C1 on the shipped scenario: refundAgent may hand off only to
conciergeAgent, orderingAgent and promoAgent, so a directive targeting
recommendationAgent is rejected. -/
theorem handoff_rejected_leaves_agent_unchanged_witness :
    (processHandoffDirective doorDashMultiAgentScenario
        { status := SessionStatus.CONNECTED, activeAgent := "refundAgent", history := [] }
        "recommendationAgent").activeAgent = "refundAgent" ∧
    (processHandoffDirective doorDashMultiAgentScenario
        { status := SessionStatus.CONNECTED, activeAgent := "refundAgent", history := [] }
        "recommendationAgent").history =
      [HistoryItem.handoffRejected "refundAgent" "recommendationAgent"] := by
  have h := handoff_rejected_leaves_agent_unchanged doorDashMultiAgentScenario
    { status := SessionStatus.CONNECTED, activeAgent := "refundAgent", history := [] }
    "recommendationAgent" refundAgent rfl (by decide) (by decide)
  exact ⟨h.1, h.2.2.1⟩

/-- Theorem for claim C2: when a session is already live, connect returns with
the state untouched and never builds a second session; a successful connect
from a disconnected state yields status CONNECTED and a fresh session whose
active agent is the first entry of initialAgents (the scenario root). -/
theorem connect_guarded_and_sets_root (st : HookState) (initialAgents : List String) :
    (∀ sess, st.session = some sess → connect st initialAgents = st) ∧
    (st.session = none →
      (connect st initialAgents).status = SessionStatus.CONNECTED ∧
      (connect st initialAgents).session =
        some { activeAgent := initialAgents.head?, sentEvents := [], sentMessages := [] }) := by
  constructor
  · intro sess hs
    unfold connect
    rw [hs]
  · intro hs
    unfold connect
    rw [hs]
    exact ⟨rfl, rfl⟩

/-- Witness for C2: connecting the initial (disconnected) hook state with the
scenario agent list reaches CONNECTED with conciergeAgent active, and a second
connect call on the resulting state changes nothing. -/
theorem connect_guarded_and_sets_root_witness :
    ((connect initialHookState ["conciergeAgent", "orderingAgent"]).status =
        SessionStatus.CONNECTED ∧
      (connect initialHookState ["conciergeAgent", "orderingAgent"]).session =
        some { activeAgent := some "conciergeAgent", sentEvents := [], sentMessages := [] }) ∧
    connect (connect initialHookState ["conciergeAgent", "orderingAgent"]) ["refundAgent"] =
      connect initialHookState ["conciergeAgent", "orderingAgent"] := by
  refine ⟨(connect_guarded_and_sets_root initialHookState ["conciergeAgent", "orderingAgent"]).2 rfl, ?_⟩
  exact (connect_guarded_and_sets_root
    (connect initialHookState ["conciergeAgent", "orderingAgent"]) ["refundAgent"]).1
    { activeAgent := some "conciergeAgent", sentEvents := [], sentMessages := [] } rfl

/-- Theorem for claim C3: disconnect is idempotent — a second disconnect
produces exactly the state of the first (and, being a total function, no
error) — and the resulting state is DISCONNECTED with no session. -/
theorem disconnect_idempotent (st : HookState) :
    disconnect (disconnect st) = disconnect st ∧
    (disconnect st).session = none ∧
    (disconnect st).status = SessionStatus.DISCONNECTED :=
  ⟨rfl, rfl, rfl⟩

/-- Counterexample for claim C4: in the state reachable while connect awaits the
transport (session already constructed, status still CONNECTING), the status is
not CONNECTED yet sendUserText succeeds and sends the message instead of
failing: the guard in the source checks only that the session ref is non-null,
not the status. -/
theorem sendUserText_status_guard_counterexample :
    (connectMidState initialHookState ["conciergeAgent"]).status ≠ SessionStatus.CONNECTED ∧
    sendUserText (connectMidState initialHookState ["conciergeAgent"]) "hello" =
      Except.ok
        { session := some { activeAgent := some "conciergeAgent", sentEvents := []
                            sentMessages := ["hello"] }
          status := SessionStatus.CONNECTING } := by
  exact ⟨by decide, rfl⟩

/-- Theorem for the amended claim C4: sendUserText fails with the
not-connected error exactly when no session handle exists (in particular in
every disconnected state), and whenever a session handle exists it sends
exactly one user message to it — even in the transient CONNECTING window after
the session is constructed. -/
theorem sendUserText_session_guard (st : HookState) (text : String) :
    (st.session = none →
      sendUserText st text = Except.error "RealtimeSession not connected") ∧
    (∀ sess, st.session = some sess →
      sendUserText st text =
        Except.ok { st with
          session := some { sess with sentMessages := sess.sentMessages ++ [text] } }) := by
  constructor
  · intro hs
    unfold sendUserText
    rw [hs]
  · intro sess hs
    unfold sendUserText
    rw [hs]

/-- Witness for the amended C4: in the initial state the call errors; in a
connected state it sends the single message. -/
theorem sendUserText_session_guard_witness :
    sendUserText initialHookState "hi" = Except.error "RealtimeSession not connected" ∧
    sendUserText
        { session := some { activeAgent := some "conciergeAgent", sentEvents := []
                            sentMessages := [] }
          status := SessionStatus.CONNECTED } "hi" =
      Except.ok
        { session := some { activeAgent := some "conciergeAgent", sentEvents := []
                            sentMessages := ["hi"] }
          status := SessionStatus.CONNECTED } := by
  refine ⟨(sendUserText_session_guard initialHookState "hi").1 rfl, ?_⟩
  exact (sendUserText_session_guard
    { session := some { activeAgent := some "conciergeAgent", sentEvents := [], sentMessages := [] }
      status := SessionStatus.CONNECTED } "hi").2
    { activeAgent := some "conciergeAgent", sentEvents := [], sentMessages := [] } rfl

/-- Theorem for claim C5: for any history holding no item for the identifier,
the delta stream He, llo followed by completed Hello for that identifier leaves
exactly one item for the identifier, carrying final text Hello and marked
terminal; moreover a delta for an identifier with an open item never changes
the number of history items. -/
theorem delta_stream_single_item (h : List TranscriptItem) (id : String)
    (hid : ∀ it ∈ h, (it.itemId == id) = false) :
    (handleTranscriptionCompleted
        (handleTranscriptionDelta (handleTranscriptionDelta h id "He") id "llo") id
        "Hello").filter (fun it => it.itemId == id) =
      [{ itemId := id, text := "Hello", done := true }] ∧
    (∀ (h2 : List TranscriptItem) (d : String),
      h2.any (fun it => it.itemId == id && !it.done) = true →
      (handleTranscriptionDelta h2 id d).length = h2.length) := by
  have hmapid : ∀ (f : TranscriptItem → TranscriptItem),
      (∀ it, (it.itemId == id) = false → f it = it) → h.map f = h := by
    intro f hf
    conv_rhs => rw [← List.map_id h]
    apply List.map_congr_left
    intro a ha
    exact hf a (hid a ha)
  constructor
  · rw [handleTranscriptionDelta_not_present h id "He" hid]
    have hstep2 :
        handleTranscriptionDelta (h ++ [{ itemId := id, text := "He", done := false }]) id "llo" =
          h ++ [{ itemId := id, text := "He" ++ "llo", done := false }] := by
      unfold handleTranscriptionDelta
      have hany : (h ++ [({ itemId := id, text := "He", done := false } : TranscriptItem)]).any
          (fun it => it.itemId == id && !it.done) = true := by
        rw [List.any_append]
        simp
      rw [hany]
      simp only [if_true]
      rw [List.map_append]
      congr 1
      · apply hmapid
        intro it hit
        simp [hit]
      · simp
    rw [hstep2]
    have hstep3 :
        handleTranscriptionCompleted
            (h ++ [{ itemId := id, text := "He" ++ "llo", done := false }]) id "Hello" =
          h ++ [{ itemId := id, text := "Hello", done := true }] := by
      unfold handleTranscriptionCompleted
      have hany :
          (h ++ [({ itemId := id, text := "He" ++ "llo", done := false } : TranscriptItem)]).any
            (fun it => it.itemId == id) = true := by
        rw [List.any_append]
        simp
      rw [hany]
      simp only [if_true]
      rw [List.map_append]
      congr 1
      · apply hmapid
        intro it hit
        simp [hit]
      · simp
    rw [hstep3]
    rw [List.filter_append]
    have hfil : h.filter (fun it => it.itemId == id) = [] := by
      rw [List.filter_eq_nil_iff]
      intro it hit
      simp [hid it hit]
    rw [hfil]
    simp
  · intro h2 d hopen
    unfold handleTranscriptionDelta
    rw [hopen]
    simp

/-- Witness for C5 at the empty history with identifier utt_1, and a delta on a
one-item history with an open item for utt_1. -/
theorem delta_stream_single_item_witness :
    (handleTranscriptionCompleted
        (handleTranscriptionDelta (handleTranscriptionDelta [] "utt_1" "He") "utt_1" "llo")
        "utt_1" "Hello").filter (fun it => it.itemId == "utt_1") =
      [{ itemId := "utt_1", text := "Hello", done := true }] ∧
    (handleTranscriptionDelta [{ itemId := "utt_1", text := "He", done := false }] "utt_1"
        "llo").length = 1 := by
  have h := delta_stream_single_item [] "utt_1" (by intro it hit; cases hit)
  exact ⟨h.1, h.2 [{ itemId := "utt_1", text := "He", done := false }] "llo" (by decide)⟩

/-- Theorem for claim C6: when the collaborator responds non-OK or the
execution throws, both database-backed fetch tools return the structured
failure object instead of propagating an exception, recording the result
appends exactly one ToolExecutionError-bearing history item, and the session
status stays CONNECTED. -/
theorem tool_failure_recovered {α : Type} (outcome : FetchOutcome α) (st : OrchestratorState)
    (hconn : st.status = SessionStatus.CONNECTED)
    (hfail : ∀ payload : α, outcome ≠ FetchOutcome.ok payload) :
    (fetchOrderRecordExecute outcome).isFailure = true ∧
    (fetchOrderHistoryExecute outcome).isFailure = true ∧
    (∃ e, (recordToolResult st "fetchOrderRecord" (fetchOrderRecordExecute outcome)).history =
      st.history ++ [HistoryItem.toolErrorRecord "fetchOrderRecord" e]) ∧
    (recordToolResult st "fetchOrderRecord" (fetchOrderRecordExecute outcome)).status =
      SessionStatus.CONNECTED := by
  cases outcome with
  | ok payload => exact absurd rfl (hfail payload)
  | httpError body =>
      exact ⟨rfl, rfl, ⟨body.errorField.getD "Failed to fetch order record", rfl⟩, hconn⟩
  | threw message =>
      exact ⟨rfl, rfl, ⟨"Unexpected failure while fetching order record", rfl⟩, hconn⟩

/-- Witness for C6 at a concrete non-OK response in a concrete connected
session. -/
theorem tool_failure_recovered_witness :
    (fetchOrderRecordExecute
        (FetchOutcome.httpError { errorField := some "boom", detailsField := none } :
          FetchOutcome Unit)).isFailure = true ∧
    (recordToolResult
        { status := SessionStatus.CONNECTED, activeAgent := "refundAgent", history := [] }
        "fetchOrderRecord"
        (fetchOrderRecordExecute
          (FetchOutcome.httpError { errorField := some "boom", detailsField := none } :
            FetchOutcome Unit))).status = SessionStatus.CONNECTED := by
  have h := tool_failure_recovered
    (FetchOutcome.httpError { errorField := some "boom", detailsField := none } :
      FetchOutcome Unit)
    { status := SessionStatus.CONNECTED, activeAgent := "refundAgent", history := [] } rfl
    (by intro payload hpc; exact FetchOutcome.noConfusion hpc)
  exact ⟨h.1, h.2.2.2⟩

/-- Theorem for claim C7: with a live session, pushToTalkStart sends exactly
one input-buffer-clear command and pushToTalkStop then sends exactly one
input-buffer-commit followed by exactly one response-request; both are total
functions, so the pair never produces an error, and with no intervening audio
the transport commits an empty buffer and registers one response request. -/
theorem push_to_talk_matched_pair (st : HookState) (sess : LiveSession)
    (hs : st.session = some sess) :
    pushToTalkStart st =
      { st with session := some { sess with sentEvents := sess.sentEvents ++ [TransportEvent.clear] } } ∧
    pushToTalkStop (pushToTalkStart st) =
      { st with session := some { sess with sentEvents := sess.sentEvents ++ [TransportEvent.clear, TransportEvent.commit, TransportEvent.responseCreate] } } ∧
    (∀ t : TransportState,
      applyTransportEvents t
          [TransportEvent.clear, TransportEvent.commit, TransportEvent.responseCreate] =
        { inputBuffer := [], committed := t.committed ++ [[]]
          responsesRequested := t.responsesRequested + 1 }) := by
  refine ⟨?_, ?_, ?_⟩
  · unfold pushToTalkStart
    rw [hs]
  · unfold pushToTalkStart pushToTalkStop
    rw [hs]
    simp
  · intro t
    rfl

/-- Witness for C7 at a concrete connected state and the empty transport
state. -/
theorem push_to_talk_matched_pair_witness :
    pushToTalkStop (pushToTalkStart
        { session := some { activeAgent := some "conciergeAgent", sentEvents := []
                            sentMessages := [] }
          status := SessionStatus.CONNECTED }) =
      { session := some { activeAgent := some "conciergeAgent"
                          sentEvents := [TransportEvent.clear, TransportEvent.commit,
                            TransportEvent.responseCreate]
                          sentMessages := [] }
        status := SessionStatus.CONNECTED } ∧
    applyTransportEvents { inputBuffer := [], committed := [], responsesRequested := 0 }
        [TransportEvent.clear, TransportEvent.commit, TransportEvent.responseCreate] =
      { inputBuffer := [], committed := [[]], responsesRequested := 1 } := by
  have h := push_to_talk_matched_pair
    { session := some { activeAgent := some "conciergeAgent", sentEvents := [], sentMessages := [] }
      status := SessionStatus.CONNECTED }
    { activeAgent := some "conciergeAgent", sentEvents := [], sentMessages := [] } rfl
  exact ⟨h.2.1, h.2.2 { inputBuffer := [], committed := [], responsesRequested := 0 }⟩

/-- Counterexample for claim C8: the construction path of the module (a
RealtimeAgent record followed by a handoffs push and an array literal) is plain
data manipulation with no failure channel, so a configuration whose handoff
target names no agent of the scenario is built without any ConfigurationError —
yet it violates the claimed invariant, as scenarioValid reports. -/
theorem scenario_construction_unchecked :
    ghostHandoffAgent.handoffs = ["ghostAgent"] ∧
    scenarioValid doorDashToolRegistry [ghostHandoffAgent] = false :=
  ⟨rfl, by decide⟩

/-- Theorem for the amended claim C8: the module performs no construction-time
validation, but the shipped doorDashMultiAgentScenario does satisfy all three
configuration invariants of the spec: unique agent names, every handoff target
present in the scenario, and every referenced tool present in the Tool
Registry. -/
theorem doorDashScenario_satisfies_invariants :
    scenarioValid doorDashToolRegistry doorDashMultiAgentScenario = true := by decide

/-- Theorem for claim C9: an order inserted through the create-order path is
stored with status pending and with exactly the supplied fields, and a
subsequent fetch by the returned id observes that same row, provided no
existing row already carries the fresh id (the serial-key invariant of the
table). -/
theorem insertOrder_fetch_roundtrip (db : OrdersTable) (customerName : String)
    (items : List StoredOrderItem) (promotionCode : Option String)
    (hfresh : ∀ r ∈ db.rows, r.id ≠ db.nextId) :
    (insertOrder db customerName items promotionCode).2.status = "pending" ∧
    fetchOrderById (insertOrder db customerName items promotionCode).1
        (insertOrder db customerName items promotionCode).2.id =
      some (insertOrder db customerName items promotionCode).2 ∧
    (insertOrder db customerName items promotionCode).2.customer_name = customerName ∧
    (insertOrder db customerName items promotionCode).2.items = items ∧
    (insertOrder db customerName items promotionCode).2.promotion_code = promotionCode := by
  refine ⟨rfl, ?_, rfl, rfl, rfl⟩
  unfold insertOrder fetchOrderById
  rw [List.find?_append]
  have h1 : db.rows.find? (fun r => r.id == db.nextId) = none := by
    rw [List.find?_eq_none]
    intro r hr
    simpa using hfresh r hr
  rw [h1]
  simp

/-- Witness for C9 at an empty table. -/
theorem insertOrder_fetch_roundtrip_witness :
    (insertOrder { rows := [], nextId := 1 } "Jamie"
        [{ name := "Pad See Ew", quantity := 1, notes := none }] none).2.status = "pending" ∧
    fetchOrderById
        (insertOrder { rows := [], nextId := 1 } "Jamie"
          [{ name := "Pad See Ew", quantity := 1, notes := none }] none).1 1 =
      some { id := 1, status := "pending", customer_name := "Jamie", promotion_code := none
             items := [{ name := "Pad See Ew", quantity := 1, notes := none }] } := by
  have h := insertOrder_fetch_roundtrip { rows := [], nextId := 1 } "Jamie"
    [{ name := "Pad See Ew", quantity := 1, notes := none }] none (by simp)
  exact ⟨h.1, h.2.1⟩

/-- Theorem for claim C10: issueRefund echoes order_id and refund_type, returns
exactly 28.50 for a full refund regardless of any supplied amount, returns the
supplied amount rounded to two decimal places otherwise, and returns 5.00 when
no amount is supplied for a non-full refund. -/
theorem issueRefund_amounts (input : RefundInput) :
    (issueRefundExecute input).order_id = input.order_id ∧
    (issueRefundExecute input).refund_type = input.refund_type ∧
    (input.refund_type = "full" → (issueRefundExecute input).amount_refunded_usd = 28.5) ∧
    (input.refund_type ≠ "full" → ∀ a, input.amount_usd = some a →
      (issueRefundExecute input).amount_refunded_usd = toFixed2 a) ∧
    (input.refund_type ≠ "full" → input.amount_usd = none →
      (issueRefundExecute input).amount_refunded_usd = 5) := by
  refine ⟨rfl, rfl, ?_, ?_, ?_⟩
  · intro hf
    simp only [issueRefundExecute, hf, if_pos]
    norm_num [toFixed2]
  · intro hf a ha
    simp [issueRefundExecute, hf, ha]
  · intro hf ha
    simp only [issueRefundExecute, hf, ha, if_neg]
    norm_num [toFixed2]

/-- Witness for C10 at a full refund with a supplied amount, a credit with no
amount, and a partial refund with amount one third. -/
theorem issueRefund_amounts_witness :
    (issueRefundExecute
        { order_id := "DD-482913", refund_type := "full", amount_usd := some 10
          reason := "late" }).amount_refunded_usd = 28.5 ∧
    (issueRefundExecute
        { order_id := "DD-482913", refund_type := "credit", amount_usd := none
          reason := "late" }).amount_refunded_usd = 5 ∧
    (issueRefundExecute
        { order_id := "DD-482913", refund_type := "partial", amount_usd := some (1/3)
          reason := "late" }).amount_refunded_usd = toFixed2 (1/3) := by
  refine ⟨(issueRefund_amounts _).2.2.1 rfl, ?_, ?_⟩
  · exact (issueRefund_amounts
      { order_id := "DD-482913", refund_type := "credit", amount_usd := none
        reason := "late" }).2.2.2.2 (by decide) rfl
  · exact (issueRefund_amounts
      { order_id := "DD-482913", refund_type := "partial", amount_usd := some (1/3)
        reason := "late" }).2.2.2.1 (by decide) (1/3) rfl

end RealtimeRepo
